import Mathlib

/-!
# Verification of the scene-continuity video assembly pipeline

A shallow embedding of the core pipeline of this repository:
`video_generation_reference.py` (`generate_scenes`, `stitch_videos`,
`generate_narration_audio`, `generate_video`), the refactored
`src/generators/video_generator.py` (`VideoGenerator._get_video_durations`,
`VideoGenerator.generate_videos`), and the per-engine poll loop of
`luma_video_gen.py` (`LumaVideoGenerator.generate_video`).

External services (the upload service, the render service, sound-effect and
speech synthesis, the filesystem) are modelled as oracles passed in as
functions; the pipeline's own control flow — segment planning, the
upload-uniqueness retry loop, continuity-token propagation, per-scene
stitching, final assembly — is translated statement by statement from the
Python source.
-/

namespace VideoPipeline

/-- Python truthiness of an optional string (`if x:` where `x` is
`None` or a `str`): `None` and the empty string are falsy. -/
def truthy : Option String → Bool
  | none => false
  | some s => !s.isEmpty

/-- Result of one run of the upload-uniqueness retry loop of
`generate_scenes` (video_generation_reference.py:790-807).
`result` is the accepted URL (`none` when retries were exhausted and the
code raises), `attempts` the number of `uploader.upload_image` calls made,
and `sleeps` the list of `time.sleep` durations performed, in order. -/
structure UploadOutcome where
  result : Option String
  attempts : Nat
  sleeps : List Nat
  deriving Repr, DecidableEq

/-- The retry loop of video_generation_reference.py:791-804:

    max_retries = 3
    retry_count = 0
    while retry_count < max_retries:
        new_frame_url = uploader.upload_image(frame_path)
        if new_frame_url != segment_last_frame_url:
            ... accept new_frame_url ...
            break
        time.sleep(2)
        retry_count += 1

`upload k` is the URL returned by the `(k+1)`-th upload call; `held` is
`segment_last_frame_url` (an `Option` because the Python variable may be
`None`, and `str != None` is `True`).  The loop guard
`retry_count < max_retries` is carried structurally as
`remaining = max_retries - retry_count`: the guard holds iff
`remaining > 0`. -/
def uploadRetryLoop (upload : Nat → String) (held : Option String) :
    (remaining retryCount : Nat) → UploadOutcome
  | 0, retryCount => { result := none, attempts := retryCount, sleeps := [] }
  | remaining + 1, retryCount =>
    let newUrl := upload retryCount
    if some newUrl ≠ held then
      { result := some newUrl, attempts := retryCount + 1, sleeps := [] }
    else
      let rest := uploadRetryLoop upload held remaining (retryCount + 1)
      { rest with sleeps := 2 :: rest.sleeps }

/-- The retry loop as entered by `generate_scenes`: `max_retries = 3`,
`retry_count = 0`. -/
def uploadWithRetry (upload : Nat → String) (held : Option String) :
    UploadOutcome :=
  uploadRetryLoop upload held 3 0

/-- The segment planner of `generate_scenes`
(video_generation_reference.py:588-607): duration lookup table per engine.
Returns the ordered list of segment durations, or the `ValueError` message. -/
def videoDurations (videoEngine : String) (sceneDuration : Nat) :
    Except String (List Nat) :=
  if videoEngine = "ltx" ∨ videoEngine = "fal" then
    if sceneDuration = 5 then .ok [5]
    else if sceneDuration = 10 then .ok [5, 5]
    else .error ("Invalid scene duration for " ++ videoEngine ++ ": " ++
      toString sceneDuration ++ ". Must be 5 or 10.")
  else
    if sceneDuration = 5 ∨ sceneDuration = 9 then .ok [sceneDuration]
    else if sceneDuration = 14 then .ok [5, 9]
    else if sceneDuration = 18 then .ok [9, 9]
    else .error ("Invalid scene duration for Luma: " ++
      toString sceneDuration ++ ". Must be 5, 9, 14, or 18.")

/-- `VideoGenerator._get_video_durations`
(src/generators/video_generator.py:29-40).  Note that for the `ltx`
engine it returns `[5]` for every scene duration, before even looking at
`scene_duration`. -/
def getVideoDurations (videoEngine : String) (sceneDuration : Nat) :
    Except String (List Nat) :=
  if videoEngine = "ltx" then .ok [5]
  else if sceneDuration = 5 ∨ sceneDuration = 9 then .ok [sceneDuration]
  else if sceneDuration = 14 then .ok [5, 9]
  else if sceneDuration = 18 then .ok [9, 9]
  else .error ("Invalid scene duration: " ++ toString sceneDuration)

/-- `scene_dir` (video_generation_reference.py:584). -/
def sceneDirPath (videoDir timestamp : String) (n : Nat) : String :=
  videoDir ++ "/scene_" ++ toString n ++ "_all_vid_" ++ timestamp

/-- `video_path` for one segment (video_generation_reference.py:680-683):
single-segment scenes drop the `_vid_{idx}` infix. -/
def segmentVideoPath (videoDir timestamp : String) (n numSegs vidIdx : Nat) :
    String :=
  if numSegs = 1 then
    sceneDirPath videoDir timestamp n ++ "/scene_" ++ toString n ++ "_" ++
      timestamp ++ ".mp4"
  else
    sceneDirPath videoDir timestamp n ++ "/scene_" ++ toString n ++ "_vid_" ++
      toString vidIdx ++ "_" ++ timestamp ++ ".mp4"

/-- The per-scene output path, written both by the stitch branch
(video_generation_reference.py:813) and the copy branch (line 824). -/
def sceneFinalVideoPath (videoDir timestamp : String) (n : Nat) : String :=
  videoDir ++ "/scene_" ++ toString n ++ "_" ++ timestamp ++ ".mp4"

/-- `sound_effect_path` (video_generation_reference.py:615). -/
def soundEffectPath (videoDir timestamp : String) (n : Nat) : String :=
  sceneDirPath videoDir timestamp n ++ "/scene_" ++ toString n ++ "_sound.mp3"

/-- One scene of the plan, as consumed by `generate_scenes`
(only the fields the pipeline's control flow reads; the free-text prompt
fields are passed through to the render/synthesis services verbatim). -/
structure Scene where
  sceneNumber : Nat
  sceneDuration : Nat
  deriving Repr, DecidableEq

/-- Trace record of one render call: which scene (0-based loop index `i`),
which segment (1-based `vid_idx`), and the starting-frame URL passed to the
engine (`none` when no `image_url` argument was added). -/
structure RenderCall where
  sceneIdx : Nat
  vidIdx : Nat
  startUrl : Option String
  deriving Repr, DecidableEq

/-- Trace record of one accepted frame upload: the scene/segment it came
from, the URL the retry loop accepted, and how many upload attempts that
took. -/
structure AcceptedUpload where
  sceneIdx : Nat
  vidIdx : Nat
  url : String
  attempts : Nat
  deriving Repr, DecidableEq

/-- Trace record written when a scene finishes: the value of
`last_frame_url` published for the next scene, together with the scene's
segment count. -/
structure SceneEnd where
  sceneIdx : Nat
  numSegs : Nat
  lastUrl : Option String
  deriving Repr, DecidableEq

/-- The per-scene stitch of video_generation_reference.py:809-826: with
more than one segment the segment clips are concatenated
(`concatenate_videoclips`), otherwise the single segment file is copied
(`shutil.copy2`). -/
inductive SceneStitchOp where
  | concatAll (inputs : List String) (outputPath : String)
  | copySingle (src : String) (outputPath : String)
  deriving Repr, DecidableEq

/-- The file the stitch op writes. -/
def SceneStitchOp.outPath : SceneStitchOp → String
  | .concatAll _ o => o
  | .copySingle _ o => o

/-- Duration of the stitched scene video, given the duration `dur v` of
each input file: `concatenate_videoclips` yields the sum of its inputs'
durations, a copy preserves the source's duration. -/
def stitchDuration (dur : String → ℚ) : SceneStitchOp → ℚ
  | .concatAll inputs _ => (inputs.map dur).sum
  | .copySingle src _ => dur src

/-- State of the inner segment loop (video_generation_reference.py:678-807):
the upload-call counter (position in the upload oracle stream),
`last_frame_url`, `segment_last_frame_url`, the `scene_videos` list, and the
accumulated render/upload traces. -/
structure SegLoopState where
  uploadCtr : Nat
  lastFrameUrl : Option String
  segmentLastFrameUrl : Option String
  sceneVideos : List String
  renderCalls : List RenderCall
  accepted : List AcceptedUpload
  deriving Repr, DecidableEq

/-- State of the outer scene loop of `generate_scenes`: `last_frame_url`
plus the two returned lists (`scene_video_files`, `sound_effect_files`) and
the traces. -/
structure PipeState where
  uploadCtr : Nat
  lastFrameUrl : Option String
  sceneVideoFiles : List String
  soundEffectFiles : List (Option String)
  renderCalls : List RenderCall
  accepted : List AcceptedUpload
  sceneEnds : List SceneEnd
  stitchOps : List SceneStitchOp
  deriving Repr, DecidableEq

/-- The `image_url` argument selection of video_generation_reference.py
(lines 697-705 for fal, 720-727 for ltx, 748-756 for luma — the condition
chain is identical in all three branches):

    if vid_idx == 1 and i == 0 and first_frame_of_first_scene_url: ...
    elif vid_idx == 1 and scene_start_image_url: ...
    elif vid_idx == 1 and i > 0 and last_frame_url: ...
    elif vid_idx > 1 and segment_last_frame_url: ...
-/
def selectStartUrl (i vidIdx : Nat)
    (firstFrameOfFirstSceneUrl sceneStartImageUrl lastFrameUrl
      segmentLastFrameUrl : Option String) : Option String :=
  if vidIdx = 1 ∧ i = 0 ∧ truthy firstFrameOfFirstSceneUrl then
    firstFrameOfFirstSceneUrl
  else if vidIdx = 1 ∧ truthy sceneStartImageUrl then sceneStartImageUrl
  else if vidIdx = 1 ∧ 0 < i ∧ truthy lastFrameUrl then lastFrameUrl
  else if 1 < vidIdx ∧ truthy segmentLastFrameUrl then segmentLastFrameUrl
  else none

/-- One iteration of the segment loop
(video_generation_reference.py:678-807), for a successful render: build the
segment path, select the starting frame, render (modelled as succeeding —
a render or frame-extraction failure raises and aborts the run before any
state is updated), extract the last frame, then run the upload-uniqueness
retry loop against `segment_last_frame_url` and publish the accepted URL
(to `last_frame_url` for the scene's last segment, else to
`segment_last_frame_url`, lines 795-799). -/
def segmentStep (upload : Nat → String) (videoDir timestamp : String)
    (i n numSegs vidIdx : Nat)
    (firstFrameOfFirstSceneUrl sceneStartImageUrl : Option String)
    (st : SegLoopState) : Except String SegLoopState :=
  let videoPath := segmentVideoPath videoDir timestamp n numSegs vidIdx
  let startUrl := selectStartUrl i vidIdx firstFrameOfFirstSceneUrl
    sceneStartImageUrl st.lastFrameUrl st.segmentLastFrameUrl
  let outcome := uploadWithRetry (fun k => upload (st.uploadCtr + k))
    st.segmentLastFrameUrl
  match outcome.result with
  | none => .error ("Failed to get unique frame URL for video " ++
      toString vidIdx ++ " in scene " ++ toString n)
  | some newFrameUrl =>
    .ok { uploadCtr := st.uploadCtr + outcome.attempts
          lastFrameUrl :=
            if vidIdx = numSegs then some newFrameUrl else st.lastFrameUrl
          segmentLastFrameUrl :=
            if vidIdx = numSegs then st.segmentLastFrameUrl
            else some newFrameUrl
          sceneVideos := st.sceneVideos ++ [videoPath]
          renderCalls := st.renderCalls ++
            [{ sceneIdx := i, vidIdx := vidIdx, startUrl := startUrl }]
          accepted := st.accepted ++
            [{ sceneIdx := i, vidIdx := vidIdx, url := newFrameUrl,
               attempts := outcome.attempts }] }

/-- `for vid_idx, duration in enumerate(video_durations, 1): ...`
(video_generation_reference.py:678): the segment loop, threading the state
through `segmentStep` for each planned duration. -/
def runSegments (upload : Nat → String) (videoDir timestamp : String)
    (i n numSegs : Nat) (ff ss : Option String) :
    List Nat → Nat → SegLoopState → Except String SegLoopState
  | [], _, st => .ok st
  | _ :: rest, vidIdx, st =>
    match segmentStep upload videoDir timestamp i n numSegs vidIdx ff ss st
      with
    | .error e => .error e
    | .ok st' =>
      runSegments upload videoDir timestamp i n numSegs ff ss rest
        (vidIdx + 1) st'

/-- The per-scene stitch (video_generation_reference.py:809-826):
`if len(scene_videos) > 1` concatenate, else copy `scene_videos[0]`;
both branches write `{video_dir}/scene_{n}_{timestamp}.mp4`. -/
def stitchSceneVideos (videoDir timestamp : String) (n : Nat)
    (sceneVideos : List String) : Except String SceneStitchOp :=
  if sceneVideos.length > 1 then
    .ok (.concatAll sceneVideos (sceneFinalVideoPath videoDir timestamp n))
  else
    match sceneVideos with
    | [] => .error "list index out of range"
    | v :: _ => .ok (.copySingle v (sceneFinalVideoPath videoDir timestamp n))

/-- One iteration of the scene loop (video_generation_reference.py:582-828):
plan the segment durations (an unsupported duration raises), record the
sound-effect outcome (`sfxOk i` says whether the synthesis call for scene
`i` produced a non-empty file; a failure appends `None`, lines 611-644),
optionally generate a LoRA first frame (`loraUrl i`, lines 663-676), reset
`segment_last_frame_url` (line 661) and `scene_videos` (line 609), run the
segment loop, then stitch or copy and append the per-scene outputs. -/
def sceneStep (engine : String) (skipSfx : Bool) (upload : Nat → String)
    (sfxOk : Nat → Bool) (loraMode : Bool) (loraUrl : Nat → Option String)
    (videoDir timestamp : String) (ff : Option String)
    (i : Nat) (scene : Scene) (st : PipeState) : Except String PipeState :=
  let n := scene.sceneNumber
  match videoDurations engine scene.sceneDuration with
  | .error e => .error e
  | .ok durations =>
    let sfxEntry : Option String :=
      if skipSfx then none
      else if sfxOk i then some (soundEffectPath videoDir timestamp n)
      else none
    let sceneStartImageUrl : Option String :=
      if loraMode then loraUrl i else none
    let segSt : SegLoopState :=
      { uploadCtr := st.uploadCtr, lastFrameUrl := st.lastFrameUrl,
        segmentLastFrameUrl := none, sceneVideos := [],
        renderCalls := st.renderCalls, accepted := st.accepted }
    match runSegments upload videoDir timestamp i n durations.length ff
      sceneStartImageUrl durations 1 segSt with
    | .error e => .error e
    | .ok endSt =>
      match stitchSceneVideos videoDir timestamp n endSt.sceneVideos with
      | .error e => .error e
      | .ok op =>
        .ok { uploadCtr := endSt.uploadCtr
              lastFrameUrl := endSt.lastFrameUrl
              sceneVideoFiles := st.sceneVideoFiles ++
                [sceneFinalVideoPath videoDir timestamp n]
              soundEffectFiles := st.soundEffectFiles ++ [sfxEntry]
              renderCalls := endSt.renderCalls
              accepted := endSt.accepted
              sceneEnds := st.sceneEnds ++
                [{ sceneIdx := i, numSegs := durations.length,
                   lastUrl := endSt.lastFrameUrl }]
              stitchOps := st.stitchOps ++ [op] }

/-- `for i, scene in enumerate(scenes): ...`
(video_generation_reference.py:582). -/
def runScenes (engine : String) (skipSfx : Bool) (upload : Nat → String)
    (sfxOk : Nat → Bool) (loraMode : Bool) (loraUrl : Nat → Option String)
    (videoDir timestamp : String) (ff : Option String) :
    List Scene → Nat → PipeState → Except String PipeState
  | [], _, st => .ok st
  | scene :: rest, i, st =>
    match sceneStep engine skipSfx upload sfxOk loraMode loraUrl videoDir
      timestamp ff i scene st with
    | .error e => .error e
    | .ok st' =>
      runScenes engine skipSfx upload sfxOk loraMode loraUrl videoDir
        timestamp ff rest (i + 1) st'

/-- Initial state of `generate_scenes`
(video_generation_reference.py:529-533): empty result lists,
`last_frame_url = None`. -/
def initPipeState : PipeState :=
  { uploadCtr := 0, lastFrameUrl := none, sceneVideoFiles := [],
    soundEffectFiles := [], renderCalls := [], accepted := [],
    sceneEnds := [], stitchOps := [] }

/-- `generate_scenes(scenes, video_engine, skip_sound_effects, ...)`
(video_generation_reference.py:514-830), on the success path of every
render and frame extraction.  `upload` is the stream of URLs returned by
successive `uploader.upload_image` calls; `ff` is
`first_frame_of_first_scene_url` after the initial-image handling
(lines 553-580). -/
def generateScenes (engine : String) (skipSfx : Bool)
    (upload : Nat → String) (sfxOk : Nat → Bool) (loraMode : Bool)
    (loraUrl : Nat → Option String) (videoDir timestamp : String)
    (ff : Option String) (scenes : List Scene) : Except String PipeState :=
  runScenes engine skipSfx upload sfxOk loraMode loraUrl videoDir timestamp
    ff scenes 0 initPipeState

/-- State of a pending external generation as reported by the poll
endpoint (`generation.state` in luma_video_gen.py / video_generator.py). -/
inductive GenState where
  | pending
  | completed
  | failed (reason : String)
  deriving Repr, DecidableEq

/-- The completion-wait loop of `LumaVideoGenerator.generate_video`
(luma_video_gen.py:81-95):

    start_time = time.time()
    timeout = 300  # 5 minutes timeout
    while True:
        if time.time() - start_time > timeout:
            raise TimeoutError(...)
        generation = self.client.generations.get(id=generation.id)
        if generation.state == "completed": break
        elif generation.state == "failed": raise RuntimeError(...)
        print("Dreaming...")
        time.sleep(3)

`state k` is the state reported by the `(k+1)`-th poll; before poll `k` the
loop has slept `k` times for 3 time-units each, so the elapsed time at the
timeout check is `3 * k` (poll latency idealised to zero).  Returns the
index of the successful poll, or the raised error message. -/
def lumaWaitLoop (state : Nat → GenState) (k : Nat) : Except String Nat :=
  if _h : 3 * k > 300 then
    .error "Video generation timed out after 5 minutes"
  else
    match state k with
    | .completed => .ok k
    | .failed r => .error ("Generation failed: " ++ r)
    | .pending => lumaWaitLoop state (k + 1)
termination_by 101 - k
decreasing_by omega

/-- The completion-wait loop of `VideoGenerator.generate_videos`
(src/generators/video_generator.py:157-165):

    while True:
        generation = self.luma_client.generations.get(id=generation.id)
        if generation.state == "completed": break
        elif generation.state == "failed": raise RuntimeError(...)
        print("Dreaming...")
        time.sleep(3)

There is no timeout check, so the loop need not terminate; it is embedded
with explicit fuel, `none` meaning the loop is still polling after `fuel`
iterations. -/
def vgWaitLoop (state : Nat → GenState) :
    Nat → Nat → Option (Except String Nat)
  | _, 0 => none
  | k, fuel + 1 =>
    match state k with
    | .completed => some (.ok k)
    | .failed r => some (.error ("Generation failed: " ++ r))
    | .pending => vgWaitLoop state (k + 1) fuel

/-- One clip of the final assembly: its video-track duration and, when a
sound effect was attached, the audio-track duration. -/
structure ClipResult where
  videoDur : ℚ
  audioDur : Option ℚ
  deriving Repr, DecidableEq

/-- The sound-effect attachment of `stitch_videos`
(video_generation_reference.py:961-970):

    if audio_clip.duration > video_clip.duration:
        audio_clip = audio_clip.subclip(0, video_clip.duration)
    elif audio_clip.duration < video_clip.duration:
        video_clip = video_clip.subclip(0, audio_clip.duration)
    video_clip = video_clip.set_audio(audio_clip)
-/
def attachSoundEffect (videoDur audioDur : ℚ) : ClipResult :=
  if audioDur > videoDur then { videoDur := videoDur, audioDur := some videoDur }
  else if audioDur < videoDur then
    { videoDur := audioDur, audioDur := some audioDur }
  else { videoDur := videoDur, audioDur := some audioDur }

/-- The body of the per-scene loop of `stitch_videos`
(video_generation_reference.py:952-978) for one `(video_file, sound_file)`
pair.  `videoLoad v` is the duration of `VideoFileClip(v)` (`none` when the
constructor raises), `audioLoad s` likewise for `AudioFileClip(s)`,
`fileExists` is `os.path.exists`.  Returns `none` when the scene is dropped
(`except ...: continue`); an audio failure keeps the clip without audio
(the inner `except` only prints a warning). -/
def processClip (fileExists : String → Bool)
    (videoLoad audioLoad : String → Option ℚ)
    (videoFile : String) (soundFile : Option String) : Option ClipResult :=
  match videoLoad videoFile with
  | none => none
  | some vdur =>
    match soundFile with
    | none => some { videoDur := vdur, audioDur := none }
    | some sf =>
      if !sf.isEmpty && fileExists sf then
        match audioLoad sf with
        | none => some { videoDur := vdur, audioDur := none }
        | some adur => some (attachSoundEffect vdur adur)
      else some { videoDur := vdur, audioDur := none }

/-- `sound_effect_files or [None] * len(video_files)`
(video_generation_reference.py:952): Python `or` replaces a falsy value —
`None` or the empty list — by the all-`None` list. -/
def effectiveSfx (videoFiles : List String)
    (soundEffectFiles : Option (List (Option String))) :
    List (Option String) :=
  match soundEffectFiles with
  | none => List.replicate videoFiles.length none
  | some l => if l.isEmpty then List.replicate videoFiles.length none else l

/-- `stitch_videos(video_files, sound_effect_files, ...)` up to the final
concatenation (video_generation_reference.py:949-984): build `final_clips`
by zipping the two lists and processing each pair, dropping failed scenes;
raise when no clip survived, else the concatenation of the surviving clips
in order (returned here as the ordered clip list). -/
def stitchVideos (fileExists : String → Bool)
    (videoLoad audioLoad : String → Option ℚ)
    (videoFiles : List String)
    (soundEffectFiles : Option (List (Option String))) :
    Except String (List ClipResult) :=
  let finalClips := (videoFiles.zip (effectiveSfx videoFiles soundEffectFiles)).filterMap
    (fun p => processClip fileExists videoLoad audioLoad p.1 p.2)
  if finalClips.isEmpty then
    .error "No video clips were successfully processed"
  else .ok finalClips

/-- `generate_narration_audio(narration_text, target_duration)`
(video_generation_reference.py:908-947): every failure inside — a failed
`generate_speech` call or a failed speed adjustment, summarised by the
oracle `audioOk` — is caught by the broad `except`, which prints a warning
and returns `None`; on success it returns the adjusted-audio path. -/
def generateNarrationAudio (audioOk : Bool) (videoDir timestamp : String) :
    Option String :=
  if audioOk then
    some (videoDir ++ "/narration_audio_adjusted_" ++ timestamp ++ ".mp3")
  else none

/-- The narration/video/stitch sequencing of `generate_video`
(video_generation_reference.py:1032-1085): inside one broad `try`, when
narration is enabled, `generate_narration_text` runs first — it re-raises
any failure (line 905-906), which the outer `except` turns into
`(str(e), None)` — then `generate_narration_audio` (failure gives `None`,
and the pipeline continues), then `generate_scenes` and `stitch_videos`.
On success the result is `(scene metadata JSON, final video path)`.
`textOk` is whether narration-text generation succeeds; `scenesRun` the
outcome of `generate_scenes`; `stitchRun` the outcome of `stitch_videos`
as a function of the narration audio path it is given. -/
def generateVideoRun (skipNarration textOk audioOk : Bool)
    (videoDir timestamp : String) (metadataJson : String)
    (scenesRun : Except String (List String × List (Option String)))
    (stitchRun : Option String → Except String String) :
    String × Option String :=
  match (if skipNarration then Except.ok none
    else if textOk then
      Except.ok (generateNarrationAudio audioOk videoDir timestamp)
    else Except.error "narration text generation failed" :
      Except String (Option String)) with
  | .error e => (e, none)
  | .ok narrationAudioPath =>
    match scenesRun with
    | .error e => (e, none)
    | .ok _ =>
      match stitchRun narrationAudioPath with
      | .error e => (e, none)
      | .ok finalVideo => (metadataJson, some finalVideo)

example : uploadWithRetry (fun _ => "u") (some "u") =
    { result := none, attempts := 3, sleeps := [2, 2, 2] } := by decide

example : uploadWithRetry (fun k => if k < 2 then "u" else "v") (some "u") =
    { result := some "v", attempts := 3, sleeps := [2, 2] } := by decide

example : uploadWithRetry (fun _ => "u") none =
    { result := some "u", attempts := 1, sleeps := [] } := by decide

example : videoDurations "luma" 14 = .ok [5, 9] := rfl

example : getVideoDurations "ltx" 10 = .ok [5] := rfl

/-! ## Helper lemmas -/

/-- The retry loop never makes more upload calls than allowed by the
`retry_count < max_retries` guard. -/
theorem uploadRetryLoop_attempts_le (upload : Nat → String)
    (held : Option String) :
    ∀ remaining retryCount,
      (uploadRetryLoop upload held remaining retryCount).attempts ≤
        retryCount + remaining
  | 0, rc => by simp [uploadRetryLoop]
  | remaining + 1, rc => by
    unfold uploadRetryLoop
    by_cases h : some (upload rc) ≠ held
    · simp only [if_pos h]
      omega
    · simp only [if_neg h]
      have := uploadRetryLoop_attempts_le upload held remaining (rc + 1)
      omega

/-- A URL accepted by the retry loop always differs from the held token. -/
theorem uploadRetryLoop_result_ne (upload : Nat → String)
    (held : Option String) :
    ∀ remaining retryCount v,
      (uploadRetryLoop upload held remaining retryCount).result = some v →
      some v ≠ held
  | 0, rc, v => by simp [uploadRetryLoop]
  | remaining + 1, rc, v => by
    unfold uploadRetryLoop
    by_cases h : some (upload rc) ≠ held
    · simp only [if_pos h]
      rintro hv
      rw [Option.some_inj] at hv
      subst hv
      exact h
    · simp only [if_neg h]
      exact uploadRetryLoop_result_ne upload held remaining (rc + 1) v

/-- Any list of segment durations the planner of `generate_scenes` returns
sums to the nominal scene duration. -/
theorem videoDurations_sum (engine : String) (d : Nat) (l : List Nat)
    (h : videoDurations engine d = .ok l) : l.sum = d := by
  unfold videoDurations at h
  split_ifs at h with h1 h2 h3 h4 h5 h6 <;> cases h <;>
    simp only [List.sum_cons, List.sum_nil] <;> omega

/-- For every engine other than `ltx`, `VideoGenerator._get_video_durations`
returns lists summing to the nominal duration. -/
theorem getVideoDurations_sum (engine : String) (d : Nat) (l : List Nat)
    (hne : engine ≠ "ltx")
    (h : getVideoDurations engine d = .ok l) : l.sum = d := by
  unfold getVideoDurations at h
  split_ifs at h with h1 h2 h3 h4
  · exact absurd h1 hne
  all_goals cases h <;> simp only [List.sum_cons, List.sum_nil] <;> omega

/-! ## C1: upload-uniqueness retry policy -/

/-- C1: for every extracted last frame, the upload-uniqueness loop makes at
most 3 upload attempts, sleeping a fixed 2 time-units after each duplicate
attempt; a stub upload returning the held (duplicate) URL twice and then a
new URL is accepted on the third attempt, and the accepted URL is published
as the continuity token (`last_frame_url` for a scene's last segment,
`segment_last_frame_url` otherwise); a stub that always returns the
duplicate URL makes the loop fail with an error after exactly 3 attempts. -/
theorem c1_upload_retry_policy (upload : Nat → String) (u : String) :
    (∀ held, (uploadWithRetry upload held).attempts ≤ 3) ∧
    (upload 0 = u → upload 1 = u → upload 2 ≠ u →
      uploadWithRetry upload (some u) =
        { result := some (upload 2), attempts := 3, sleeps := [2, 2] }) ∧
    ((∀ k, upload k = u) →
      uploadWithRetry upload (some u) =
        { result := none, attempts := 3, sleeps := [2, 2, 2] }) ∧
    (∀ vd ts i n numSegs vidIdx ff ss (st : SegLoopState) v,
      (uploadWithRetry (fun k => upload (st.uploadCtr + k))
          st.segmentLastFrameUrl).result = some v →
      ∃ st', segmentStep upload vd ts i n numSegs vidIdx ff ss st =
          .ok st' ∧
        (if vidIdx = numSegs then st'.lastFrameUrl
          else st'.segmentLastFrameUrl) = some v) ∧
    (∀ vd ts i n numSegs vidIdx ff ss (st : SegLoopState),
      (uploadWithRetry (fun k => upload (st.uploadCtr + k))
          st.segmentLastFrameUrl).result = none →
      segmentStep upload vd ts i n numSegs vidIdx ff ss st =
        .error ("Failed to get unique frame URL for video " ++
          toString vidIdx ++ " in scene " ++ toString n)) := by
  refine ⟨fun held => uploadRetryLoop_attempts_le upload held 3 0, ?_, ?_,
    ?_, ?_⟩
  · intro h0 h1 h2
    simp [uploadWithRetry, uploadRetryLoop, h0, h1, h2]
  · intro hall
    simp [uploadWithRetry, uploadRetryLoop, hall]
  · intro vd ts i n numSegs vidIdx ff ss st v hres
    simp only [segmentStep, hres]
    refine ⟨_, rfl, ?_⟩
    by_cases h : vidIdx = numSegs <;> simp [h]
  · intro vd ts i n numSegs vidIdx ff ss st hres
    simp only [segmentStep, hres]

/-- Witness for C1: concrete stubs exercising the
duplicate-duplicate-fresh and always-duplicate scenarios. -/
theorem c1_upload_retry_policy_witness :
    uploadWithRetry (fun k => if k < 2 then "u" else "v") (some "u") =
      { result := some "v", attempts := 3, sleeps := [2, 2] } ∧
    uploadWithRetry (fun _ => "u") (some "u") =
      { result := none, attempts := 3, sleeps := [2, 2, 2] } :=
  ⟨(c1_upload_retry_policy (fun k => if k < 2 then "u" else "v") "u").2.1
      rfl rfl (by decide),
    (c1_upload_retry_policy (fun _ => "u") "u").2.2.1 (fun _ => rfl)⟩

/-! ## C2: segment planner lookup tables -/

/-- C2 fails as stated: the claim's quantification covers both cited
planners, but `VideoGenerator._get_video_durations`
(src/generators/video_generator.py:29-40) returns `[5]` for the `ltx`
engine at scene duration 10 — not the table value `[5, 5]` — and the
returned durations sum to 5, not to the nominal duration 10. -/
theorem c2_counterexample :
    getVideoDurations "ltx" 10 = .ok [5] ∧ ([5] : List Nat).sum ≠ 10 :=
  ⟨rfl, by decide⟩

/-- C2 amended: the planner of `generate_scenes` satisfies the claim in
full (table values, sums equal to the nominal duration, errors outside the
menu); `VideoGenerator._get_video_durations` satisfies it for every engine
other than `ltx`, but under `ltx` it returns `[5]` for every nominal
duration, so the sum property and the error-on-unsupported-duration
property fail there. -/
theorem c2_amended (engine : String) (d : Nat) :
    (∀ l, videoDurations engine d = .ok l → l.sum = d) ∧
    ((engine = "ltx" ∨ engine = "fal") → d ≠ 5 → d ≠ 10 →
      ∃ e, videoDurations engine d = .error e) ∧
    (¬(engine = "ltx" ∨ engine = "fal") → d ≠ 5 → d ≠ 9 → d ≠ 14 → d ≠ 18 →
      ∃ e, videoDurations engine d = .error e) ∧
    (videoDurations "luma" 5 = .ok [5] ∧ videoDurations "luma" 9 = .ok [9] ∧
      videoDurations "luma" 14 = .ok [5, 9] ∧
      videoDurations "luma" 18 = .ok [9, 9] ∧
      videoDurations "ltx" 5 = .ok [5] ∧
      videoDurations "ltx" 10 = .ok [5, 5] ∧
      videoDurations "fal" 5 = .ok [5] ∧
      videoDurations "fal" 10 = .ok [5, 5]) ∧
    (getVideoDurations "ltx" d = .ok [5]) ∧
    (engine ≠ "ltx" → ∀ l, getVideoDurations engine d = .ok l → l.sum = d) ∧
    (engine ≠ "ltx" → d ≠ 5 → d ≠ 9 → d ≠ 14 → d ≠ 18 →
      ∃ e, getVideoDurations engine d = .error e) := by
  refine ⟨fun l h => videoDurations_sum engine d l h, ?_, ?_,
    ⟨rfl, rfl, rfl, rfl, rfl, rfl, rfl, rfl⟩, rfl,
    fun hne l h => getVideoDurations_sum engine d l hne h, ?_⟩
  · intro he h5 h10
    unfold videoDurations
    rw [if_pos he, if_neg h5, if_neg h10]
    exact ⟨_, rfl⟩
  · intro he h5 h9 h14 h18
    unfold videoDurations
    rw [if_neg he, if_neg (fun hc => hc.elim h5 h9), if_neg h14, if_neg h18]
    exact ⟨_, rfl⟩
  · intro hne h5 h9 h14 h18
    unfold getVideoDurations
    rw [if_neg hne, if_neg (fun hc => hc.elim h5 h9), if_neg h14,
      if_neg h18]
    exact ⟨_, rfl⟩

/-- Witness for C2 amended: the luma table at 14 sums correctly, and
off-menu durations raise for both planner variants. -/
theorem c2_amended_witness :
    ([5, 9] : List Nat).sum = 14 ∧
    (∃ e, videoDurations "luma" 7 = .error e) ∧
    (∃ e, videoDurations "fal" 9 = .error e) ∧
    (∃ e, getVideoDurations "luma" 10 = .error e) := by
  refine ⟨(c2_amended "luma" 14).1 [5, 9] rfl, ?_, ?_, ?_⟩
  · exact (c2_amended "luma" 7).2.2.1 (by decide) (by decide) (by decide)
      (by decide) (by decide)
  · exact (c2_amended "fal" 9).2.1 (Or.inr rfl) (by decide) (by decide)
  · exact (c2_amended "luma" 10).2.2.2.2.2.2 (by decide) (by decide)
      (by decide) (by decide) (by decide)

/-! ## C3: duplicate detection across the scene boundary -/

/-- C3 fails as stated: with an upload stub that always returns `"u"`, two
single-segment scenes both succeed.  Scene 1 publishes `"u"` as its
cross-scene continuity token (first `sceneEnds` record), and scene 2's
first upload returns that very same `"u"` — yet it is accepted on the
first attempt (`attempts = 1` in the second `accepted` record) instead of
being retried, because the acceptance test compares against
`segment_last_frame_url`, which line 661 of
video_generation_reference.py resets to `None` at the start of every
scene. -/
theorem c3_counterexample :
    (generateScenes "luma" true (fun _ => "u") (fun _ => true) false
        (fun _ => none) "vd" "ts" none [⟨1, 5⟩, ⟨2, 5⟩]).toOption.map
        PipeState.accepted =
      some [⟨0, 1, "u", 1⟩, ⟨1, 1, "u", 1⟩] ∧
    (generateScenes "luma" true (fun _ => "u") (fun _ => true) false
        (fun _ => none) "vd" "ts" none [⟨1, 5⟩, ⟨2, 5⟩]).toOption.map
        PipeState.sceneEnds =
      some [⟨0, 1, some "u"⟩, ⟨1, 1, some "u"⟩] := ⟨by decide, by decide⟩

set_option linter.unusedVariables false in
/-- C3 amended: a returned URL is accepted as a new continuity token iff it
differs by value from the held *within-scene* token
(`segment_last_frame_url`); since that token is reset to `None` at the
start of every scene, the first upload of each scene is always accepted on
the first attempt — even when it equals the previous scene's last-frame
URL, which is then re-published unchanged as the next cross-scene token. -/
theorem c3_amended (upload : Nat → String) (u : String) (st : PipeState)
    (scene : Scene) (i : Nat) (vd ts : String) (sfxOk : Nat → Bool)
    (loraUrl : Nat → Option String)
    (hlast : st.lastFrameUrl = some u)
    (hup : upload st.uploadCtr = u)
    (hdur : scene.sceneDuration = 5) :
    (∀ held remaining retryCount v,
      (uploadRetryLoop upload held remaining retryCount).result = some v →
      some v ≠ held) ∧
    ∃ st', sceneStep "luma" true upload sfxOk false loraUrl vd ts none i
        scene st = .ok st' ∧
      st'.accepted = st.accepted ++ [⟨i, 1, u, 1⟩] ∧
      st'.lastFrameUrl = some u := by
  refine ⟨fun held remaining retryCount v h =>
    uploadRetryLoop_result_ne upload held remaining retryCount v h, ?_⟩
  clear hlast
  refine ⟨({ uploadCtr := st.uploadCtr + 1
             lastFrameUrl := some u
             sceneVideoFiles := st.sceneVideoFiles ++
               [sceneFinalVideoPath vd ts scene.sceneNumber]
             soundEffectFiles := st.soundEffectFiles ++ [none]
             renderCalls := st.renderCalls ++
               [⟨i, 1, selectStartUrl i 1 none none st.lastFrameUrl none⟩]
             accepted := st.accepted ++ [⟨i, 1, u, 1⟩]
             sceneEnds := st.sceneEnds ++ [⟨i, 1, some u⟩]
             stitchOps := st.stitchOps ++
               [.copySingle (segmentVideoPath vd ts scene.sceneNumber 1 1)
                 (sceneFinalVideoPath vd ts scene.sceneNumber)] } :
    PipeState), ?_, by simp, by simp⟩
  simp [sceneStep, hdur, videoDurations, runSegments, segmentStep,
    uploadWithRetry, uploadRetryLoop, hup, stitchSceneVideos]

/-! ## Loop characterization lemmas for the scene/segment loops -/

/-- A successful segment loop appends exactly the planned segment video
paths, in `vid_idx` order, and only ever appends to the render/upload
traces. -/
theorem runSegments_ok (upload : Nat → String) (vd ts : String)
    (i n numSegs : Nat) (ff ss : Option String) :
    ∀ (ds : List Nat) (vidIdx : Nat) (st st' : SegLoopState),
      runSegments upload vd ts i n numSegs ff ss ds vidIdx st = .ok st' →
      st'.sceneVideos = st.sceneVideos ++
        (List.range' vidIdx ds.length).map
          (fun idx => segmentVideoPath vd ts n numSegs idx) ∧
      (∀ c ∈ st.renderCalls, c ∈ st'.renderCalls) ∧
      (∀ a ∈ st.accepted, a ∈ st'.accepted)
  | [], vidIdx, st, st', h => by
    cases h
    simp
  | d :: rest, vidIdx, st, st', h => by
    simp only [runSegments] at h
    split at h
    · simp at h
    · rename_i st1 heq
      obtain ⟨h1, hm1, hm2⟩ := runSegments_ok upload vd ts i n
        numSegs ff ss rest (vidIdx + 1) st1 st' h
      simp only [segmentStep] at heq
      split at heq
      · simp at heq
      · rename_i v hres
        cases heq
        simp only [List.length_cons, List.range'_succ, List.map_cons] at h1 ⊢
        refine ⟨?_, ?_, ?_⟩
        · rw [h1]
          simp
        · intro c hc
          exact hm1 c (by simp [hc])
        · intro a ha
          exact hm2 a (by simp [ha])

/-- A successful scene iteration appends exactly one scene video path, one
sound-effect entry (that scene's `.mp3` path or `None`), and one stitch
operation over that scene's planned segment paths. -/
theorem sceneStep_ok (engine : String) (skipSfx : Bool)
    (upload : Nat → String) (sfxOk : Nat → Bool) (loraMode : Bool)
    (loraUrl : Nat → Option String) (vd ts : String) (ff : Option String)
    (i : Nat) (scene : Scene) (st st' : PipeState)
    (h : sceneStep engine skipSfx upload sfxOk loraMode loraUrl vd ts ff i
      scene st = .ok st') :
    st'.sceneVideoFiles = st.sceneVideoFiles ++
      [sceneFinalVideoPath vd ts scene.sceneNumber] ∧
    (st'.soundEffectFiles = st.soundEffectFiles ++ [none] ∨
      st'.soundEffectFiles = st.soundEffectFiles ++
        [some (soundEffectPath vd ts scene.sceneNumber)]) ∧
    ∃ ds op, videoDurations engine scene.sceneDuration = .ok ds ∧
      st'.stitchOps = st.stitchOps ++ [op] ∧
      stitchSceneVideos vd ts scene.sceneNumber
        ((List.range' 1 ds.length).map
          (fun idx => segmentVideoPath vd ts scene.sceneNumber ds.length
            idx)) = .ok op := by
  simp only [sceneStep] at h
  split at h
  · simp at h
  · rename_i ds hds
    split at h
    · simp at h
    · rename_i endSt hseg
      split at h
      · simp at h
      · rename_i op hop
        cases h
        obtain ⟨hsv, -, -⟩ := runSegments_ok upload vd ts i scene.sceneNumber
          ds.length ff _ ds 1 _ endSt hseg
        simp only [List.nil_append] at hsv
        refine ⟨by simp, ?_, ds, op, hds, by simp, ?_⟩
        · by_cases hskip : skipSfx
          · left; simp [hskip]
          · by_cases hok : sfxOk i
            · right; simp [hskip, hok]
            · left; simp [hskip, hok]
        · rw [← hsv]
          exact hop

/-- A successful scene loop appends, per input scene and in input order:
its final video path, its sound-effect entry, and its stitch operation. -/
theorem runScenes_outputs (engine : String) (skipSfx : Bool)
    (upload : Nat → String) (sfxOk : Nat → Bool) (loraMode : Bool)
    (loraUrl : Nat → Option String) (vd ts : String) (ff : Option String) :
    ∀ (scenes : List Scene) (i : Nat) (st st' : PipeState),
      runScenes engine skipSfx upload sfxOk loraMode loraUrl vd ts ff scenes
        i st = .ok st' →
      st'.sceneVideoFiles = st.sceneVideoFiles ++
        scenes.map (fun sc => sceneFinalVideoPath vd ts sc.sceneNumber) ∧
      (∃ dsfx, st'.soundEffectFiles = st.soundEffectFiles ++ dsfx ∧
        dsfx.length = scenes.length ∧
        ∀ j sc, scenes.get? j = some sc → dsfx.get? j = some none ∨
          dsfx.get? j = some (some (soundEffectPath vd ts sc.sceneNumber))) ∧
      (∃ dops, st'.stitchOps = st.stitchOps ++ dops ∧
        dops.length = scenes.length ∧
        ∀ j sc, scenes.get? j = some sc → ∃ ds op,
          videoDurations engine sc.sceneDuration = .ok ds ∧
          dops.get? j = some op ∧
          stitchSceneVideos vd ts sc.sceneNumber
            ((List.range' 1 ds.length).map
              (fun idx => segmentVideoPath vd ts sc.sceneNumber ds.length
                idx)) = .ok op)
  | [], i, st, st', h => by
    cases h
    refine ⟨by simp, ⟨[], by simp, rfl, ?_⟩, ⟨[], by simp, rfl, ?_⟩⟩ <;>
      intro j sc hj <;> simp at hj
  | scene :: rest, i, st, st', h => by
    simp only [runScenes] at h
    split at h
    · simp at h
    · rename_i st1 heq
      obtain ⟨hv, ⟨dsfx, hs1, hs2, hs3⟩, ⟨dops, ho1, ho2, ho3⟩⟩ :=
        runScenes_outputs engine skipSfx upload sfxOk loraMode loraUrl vd ts
          ff rest (i + 1) st1 st' h
      obtain ⟨hv0, hsfx0, ds, op, hds, hops0, hstitch⟩ := sceneStep_ok engine
        skipSfx upload sfxOk loraMode loraUrl vd ts ff i scene st st1 heq
      refine ⟨?_, ?_, ?_⟩
      · rw [hv, hv0]
        simp
      · rcases hsfx0 with h0 | h0
        · refine ⟨none :: dsfx, ?_, by simp [hs2], ?_⟩
          · rw [hs1, h0]
            simp
          · intro j sc hj
            cases j with
            | zero => left; rfl
            | succ j => exact hs3 j sc hj
        · refine ⟨some (soundEffectPath vd ts scene.sceneNumber) :: dsfx,
            ?_, by simp [hs2], ?_⟩
          · rw [hs1, h0]
            simp
          · intro j sc hj
            cases j with
            | zero =>
              right
              simp at hj
              subst hj
              rfl
            | succ j => exact hs3 j sc hj
      · refine ⟨op :: dops, ?_, by simp [ho2], ?_⟩
        · rw [ho1, hops0]
          simp
        · intro j sc hj
          cases j with
          | zero =>
            simp at hj
            subst hj
            exact ⟨ds, op, hds, rfl, hstitch⟩
          | succ j => exact ho3 j sc hj

/-- The per-scene stitch either copies the single input or concatenates the
full input list, in order. -/
theorem stitchSceneVideos_cases (vd ts : String) (nn : Nat)
    (vids : List String) (op : SceneStitchOp)
    (h : stitchSceneVideos vd ts nn vids = .ok op) :
    (∃ v, vids = [v] ∧ op = .copySingle v (sceneFinalVideoPath vd ts nn)) ∨
    (1 < vids.length ∧
      op = .concatAll vids (sceneFinalVideoPath vd ts nn)) := by
  unfold stitchSceneVideos at h
  split_ifs at h with hlen
  · right
    cases h
    exact ⟨hlen, rfl⟩
  · left
    cases vids with
    | nil => simp at h
    | cons v rest =>
      cases h
      rw [List.length_cons] at hlen
      have hr : rest.length = 0 := by omega
      have := List.length_eq_zero.mp hr
      subst this
      exact ⟨v, rfl, rfl⟩

/-! ## C10: positional alignment of the returned lists -/

/-- C10: a successful `generate_scenes` returns one scene video path and
one sound-effect entry per input scene, positionally aligned: the `j`-th
video path is the `j`-th scene's per-scene output file, and the `j`-th
sound-effect entry is either `None` or the `j`-th scene's sound-effect
file path. -/
theorem c10_output_alignment (engine : String) (skipSfx : Bool)
    (upload : Nat → String) (sfxOk : Nat → Bool) (loraMode : Bool)
    (loraUrl : Nat → Option String) (vd ts : String) (ff : Option String)
    (scenes : List Scene) (st' : PipeState)
    (hrun : generateScenes engine skipSfx upload sfxOk loraMode loraUrl vd
      ts ff scenes = .ok st') :
    st'.sceneVideoFiles =
      scenes.map (fun sc => sceneFinalVideoPath vd ts sc.sceneNumber) ∧
    st'.sceneVideoFiles.length = scenes.length ∧
    st'.soundEffectFiles.length = scenes.length ∧
    ∀ j sc, scenes.get? j = some sc →
      st'.soundEffectFiles.get? j = some none ∨
      st'.soundEffectFiles.get? j =
        some (some (soundEffectPath vd ts sc.sceneNumber)) := by
  obtain ⟨hv, ⟨dsfx, hs1, hs2, hs3⟩, -⟩ := runScenes_outputs engine skipSfx
    upload sfxOk loraMode loraUrl vd ts ff scenes 0 initPipeState st' hrun
  simp only [initPipeState, List.nil_append] at hv hs1
  refine ⟨hv, by rw [hv]; simp, by rw [hs1, hs2], ?_⟩
  intro j sc hj
  rw [hs1]
  exact hs3 j sc hj

/-- Witness for C10: a two-scene run (sound effects enabled, succeeding
only for the first scene) whose returned lists align positionally. -/
theorem c10_output_alignment_witness :
    (generateScenes "luma" false (fun k => "u" ++ toString k)
      (fun j => j == 0) false (fun _ => none) "vd" "ts" none
      [⟨1, 5⟩, ⟨2, 14⟩]).toOption.map PipeState.sceneVideoFiles =
    some ([(⟨1, 5⟩ : Scene), ⟨2, 14⟩].map
      (fun sc => sceneFinalVideoPath "vd" "ts" sc.sceneNumber)) := by
  have hok : (generateScenes "luma" false (fun k => "u" ++ toString k)
      (fun j => j == 0) false (fun _ => none) "vd" "ts" none
      [⟨1, 5⟩, ⟨2, 14⟩]).isOk = true := by decide
  cases h : generateScenes "luma" false (fun k => "u" ++ toString k)
      (fun j => j == 0) false (fun _ => none) "vd" "ts" none
      [⟨1, 5⟩, ⟨2, 14⟩] with
  | error e =>
    rw [h] at hok
    simp [Except.isOk, Except.toBool] at hok
  | ok st' =>
    have := (c10_output_alignment "luma" false (fun k => "u" ++ toString k)
      (fun j => j == 0) false (fun _ => none) "vd" "ts" none
      [⟨1, 5⟩, ⟨2, 14⟩] st' h).1
    simp [Except.toOption, this]

/-! ## C6: per-scene stitch-or-copy -/

/-- C6: in a successful run, every scene with exactly one planned segment
has its output produced by a file copy of that single segment (no
concatenation is invoked), and every scene with more than one segment has
its output produced by concatenating the segment videos in order, with
output duration the sum of the inputs' durations (`dur` gives each input
file's duration; concatenation sums them, a copy preserves them). -/
theorem c6_scene_stitch (engine : String) (skipSfx : Bool)
    (upload : Nat → String) (sfxOk : Nat → Bool) (loraMode : Bool)
    (loraUrl : Nat → Option String) (vd ts : String) (ff : Option String)
    (scenes : List Scene) (st' : PipeState) (dur : String → ℚ)
    (hrun : generateScenes engine skipSfx upload sfxOk loraMode loraUrl vd
      ts ff scenes = .ok st') :
    st'.stitchOps.length = scenes.length ∧
    ∀ j sc, scenes.get? j = some sc → ∃ ds op,
      videoDurations engine sc.sceneDuration = .ok ds ∧
      st'.stitchOps.get? j = some op ∧
      (ds.length = 1 →
        op = .copySingle (segmentVideoPath vd ts sc.sceneNumber 1 1)
          (sceneFinalVideoPath vd ts sc.sceneNumber) ∧
        stitchDuration dur op =
          dur (segmentVideoPath vd ts sc.sceneNumber 1 1)) ∧
      (1 < ds.length →
        op = .concatAll
          ((List.range' 1 ds.length).map
            (fun idx => segmentVideoPath vd ts sc.sceneNumber ds.length idx))
          (sceneFinalVideoPath vd ts sc.sceneNumber) ∧
        stitchDuration dur op =
          (((List.range' 1 ds.length).map
            (fun idx => segmentVideoPath vd ts sc.sceneNumber ds.length
              idx)).map dur).sum) := by
  obtain ⟨-, -, ⟨dops, ho1, ho2, ho3⟩⟩ := runScenes_outputs engine skipSfx
    upload sfxOk loraMode loraUrl vd ts ff scenes 0 initPipeState st' hrun
  simp only [initPipeState, List.nil_append] at ho1
  subst ho1
  refine ⟨ho2, ?_⟩
  intro j sc hj
  obtain ⟨ds, op, hds, hget, hstitch⟩ := ho3 j sc hj
  refine ⟨ds, op, hds, hget, ?_, ?_⟩
  · intro hlen1
    rcases stitchSceneVideos_cases vd ts sc.sceneNumber _ op hstitch with
      ⟨v, hveq, hop⟩ | ⟨hgt, -⟩
    · rw [hlen1] at hveq
      simp only [List.range'_succ, List.map_cons] at hveq
      simp at hveq
      subst hop
      rw [← hveq]
      exact ⟨rfl, rfl⟩
    · rw [List.length_map, List.length_range', hlen1] at hgt
      omega
  · intro hlen2
    rcases stitchSceneVideos_cases vd ts sc.sceneNumber _ op hstitch with
      ⟨v, hveq, -⟩ | ⟨-, hop⟩
    · have : ds.length = 1 := by
        have := congrArg List.length hveq
        simpa using this
      omega
    · subst hop
      exact ⟨rfl, rfl⟩

/-- Witness for C6: in the two-scene run with durations 5 and 14 on luma,
scene 1 (one segment) is copied and scene 2 (segments [5, 9]) is
concatenated in order. -/
theorem c6_scene_stitch_witness :
    (generateScenes "luma" true (fun k => "u" ++ toString k) (fun _ => true)
      false (fun _ => none) "vd" "ts" none
      [⟨1, 5⟩, ⟨2, 14⟩]).toOption.map
      (fun st => (st.stitchOps.get? 0, st.stitchOps.get? 1)) =
    some (some (.copySingle (segmentVideoPath "vd" "ts" 1 1 1)
        (sceneFinalVideoPath "vd" "ts" 1)),
      some (.concatAll [segmentVideoPath "vd" "ts" 2 2 1,
        segmentVideoPath "vd" "ts" 2 2 2]
        (sceneFinalVideoPath "vd" "ts" 2))) := by
  have hok : (generateScenes "luma" true (fun k => "u" ++ toString k)
      (fun _ => true) false (fun _ => none) "vd" "ts" none
      [⟨1, 5⟩, ⟨2, 14⟩]).isOk = true := by decide
  cases h : generateScenes "luma" true (fun k => "u" ++ toString k)
      (fun _ => true) false (fun _ => none) "vd" "ts" none
      [⟨1, 5⟩, ⟨2, 14⟩] with
  | error e =>
    rw [h] at hok
    simp [Except.isOk, Except.toBool] at hok
  | ok st' =>
    obtain ⟨-, hall⟩ := c6_scene_stitch "luma" true
      (fun k => "u" ++ toString k) (fun _ => true) false (fun _ => none)
      "vd" "ts" none [⟨1, 5⟩, ⟨2, 14⟩] st' (fun _ => 0) h
    obtain ⟨ds0, op0, hds0, hget0, h1seg0, -⟩ := hall 0 ⟨1, 5⟩ rfl
    obtain ⟨ds1, op1, hds1, hget1, -, h2seg1⟩ := hall 1 ⟨2, 14⟩ rfl
    have hd0 : ds0 = [5] := by
      have h5 : Except.ok (ε := String) [5] = Except.ok ds0 := by
        rw [← hds0]; rfl
      injection h5 with h5
      exact h5.symm
    have hd1 : ds1 = [5, 9] := by
      have h59 : Except.ok (ε := String) [5, 9] = Except.ok ds1 := by
        rw [← hds1]; rfl
      injection h59 with h59
      exact h59.symm
    subst hd0
    subst hd1
    obtain ⟨hop0, -⟩ := h1seg0 rfl
    obtain ⟨hop1, -⟩ := h2seg1 (by decide)
    subst hop0
    subst hop1
    show some (st'.stitchOps.get? 0, st'.stitchOps.get? 1) = _
    rw [hget0, hget1]
    exact rfl

/-! ## C4: provenance of every starting frame -/

/-- The four legitimate provenances of a render call's starting-frame
argument (LoRA first-frame mode disabled): (a) the URL accepted for the
previous segment of the same scene, (b) the previous scene's published
last-frame URL, (c) the externally supplied initial frame (first segment
of the first scene), or (d) absent. -/
def GoodCall (ff : Option String) (accepted : List AcceptedUpload)
    (ends : List SceneEnd) (c : RenderCall) : Prop :=
  (1 < c.vidIdx ∧ ∃ u a, c.startUrl = some u ∧
    (⟨c.sceneIdx, c.vidIdx - 1, u, a⟩ : AcceptedUpload) ∈ accepted) ∨
  (c.vidIdx = 1 ∧ 0 < c.sceneIdx ∧ ∃ u e, c.startUrl = some u ∧
    e ∈ ends ∧ e.sceneIdx = c.sceneIdx - 1 ∧ e.lastUrl = some u) ∨
  (c.vidIdx = 1 ∧ c.sceneIdx = 0 ∧ truthy ff = true ∧ c.startUrl = ff) ∨
  c.startUrl = none

/-- Every published cross-scene token originates from the accepted upload
of its scene's final segment. -/
def GoodEnds (accepted : List AcceptedUpload)
    (ends : List SceneEnd) : Prop :=
  ∀ e ∈ ends, ∀ u, e.lastUrl = some u →
    ∃ a, (⟨e.sceneIdx, e.numSegs, u, a⟩ : AcceptedUpload) ∈ accepted

/-- `GoodCall` is preserved when the traces only grow. -/
theorem GoodCall.mono {ff : Option String}
    {acc acc' : List AcceptedUpload} {ends ends' : List SceneEnd}
    {c : RenderCall} (hacc : ∀ a ∈ acc, a ∈ acc')
    (hends : ∀ e ∈ ends, e ∈ ends')
    (h : GoodCall ff acc ends c) : GoodCall ff acc' ends' c := by
  rcases h with ⟨h1, u, a, h2, h3⟩ | ⟨h1, h2, u, e, h3, h4, h5, h6⟩ | h | h
  · exact Or.inl ⟨h1, u, a, h2, hacc _ h3⟩
  · exact Or.inr (Or.inl ⟨h1, h2, u, e, h3, hends _ h4, h5, h6⟩)
  · exact Or.inr (Or.inr (Or.inl h))
  · exact Or.inr (Or.inr (Or.inr h))

/-- A truthy optional string holds a value. -/
theorem truthy_some {x : Option String} (h : truthy x = true) :
    ∃ u, x = some u := by
  cases x with
  | none => simp [truthy] at h
  | some s => exact ⟨s, rfl⟩

/-- The `image_url` condition chain, with `scene_start_image_url = None`
(LoRA mode disabled), selects exactly one of: the initial frame, the
previous scene's token, the within-scene token, or nothing. -/
theorem selectStartUrl_cases (i vidIdx : Nat)
    (ff lastF segF : Option String) :
    selectStartUrl i vidIdx ff none lastF segF = none ∨
    (vidIdx = 1 ∧ i = 0 ∧ truthy ff = true ∧
      selectStartUrl i vidIdx ff none lastF segF = ff) ∨
    (vidIdx = 1 ∧ 0 < i ∧ truthy lastF = true ∧
      selectStartUrl i vidIdx ff none lastF segF = lastF) ∨
    (1 < vidIdx ∧ truthy segF = true ∧
      selectStartUrl i vidIdx ff none lastF segF = segF) := by
  unfold selectStartUrl
  split_ifs with h1 h2 h3 h4
  · exact Or.inr (Or.inl ⟨h1.1, h1.2.1, h1.2.2, rfl⟩)
  · simp [truthy] at h2
  · exact Or.inr (Or.inr (Or.inl ⟨h3.1, h3.2.1, h3.2.2, rfl⟩))
  · exact Or.inr (Or.inr (Or.inr ⟨h4.1, h4.2, rfl⟩))
  · exact Or.inl rfl

/-- The planner never returns an empty segment list. -/
theorem videoDurations_ne_nil (engine : String) (d : Nat) (ds : List Nat)
    (h : videoDurations engine d = .ok ds) : ds ≠ [] := by
  unfold videoDurations at h
  split_ifs at h <;> cases h <;> simp

/-- Invariant of the segment loop: every render call it issues has a
legitimate starting-frame provenance, and the published `last_frame_url`
(once the final segment has run) is the final segment's accepted URL. -/
theorem runSegments_goodCalls (upload : Nat → String) (vd ts : String)
    (i n numSegs : Nat) (ff : Option String) (ends : List SceneEnd) :
    ∀ (ds : List Nat) (vidIdx : Nat) (st st' : SegLoopState),
      runSegments upload vd ts i n numSegs ff none ds vidIdx st = .ok st' →
      1 ≤ vidIdx →
      vidIdx + ds.length = numSegs + 1 →
      (vidIdx ≤ numSegs → ∀ u, st.segmentLastFrameUrl = some u →
        1 < vidIdx ∧ ∃ a,
          (⟨i, vidIdx - 1, u, a⟩ : AcceptedUpload) ∈ st.accepted) →
      (∀ u, st.lastFrameUrl = some u → vidIdx ≤ numSegs →
        0 < i ∧ ∃ e ∈ ends, e.sceneIdx = i - 1 ∧ e.lastUrl = some u) →
      (∀ u, st.lastFrameUrl = some u → numSegs < vidIdx →
        ∃ a, (⟨i, numSegs, u, a⟩ : AcceptedUpload) ∈ st.accepted) →
      (∀ c ∈ st.renderCalls, GoodCall ff st.accepted ends c) →
      (∀ c ∈ st'.renderCalls, GoodCall ff st'.accepted ends c) ∧
      (∀ u, st'.lastFrameUrl = some u → numSegs < vidIdx + ds.length →
        ∃ a, (⟨i, numSegs, u, a⟩ : AcceptedUpload) ∈ st'.accepted)
  | [], vidIdx, st, st', h, hv1, hlen, hseg, hlastA, hlastB, hcalls => by
    cases h
    refine ⟨hcalls, fun u hu hlt => hlastB u hu ?_⟩
    simp only [List.length_nil] at hlt
    omega
  | d :: rest, vidIdx, st, st', h, hv1, hlen, hseg, hlastA, hlastB,
      hcalls => by
    have hvle : vidIdx ≤ numSegs := by
      simp only [List.length_cons] at hlen
      omega
    simp only [runSegments] at h
    split at h
    · simp at h
    · rename_i st1 heq
      simp only [segmentStep] at heq
      split at heq
      · simp at heq
      · rename_i v hres
        cases heq
        have hnew : GoodCall ff
            (st.accepted ++ [⟨i, vidIdx, v,
              (uploadWithRetry (fun k => upload (st.uploadCtr + k))
                st.segmentLastFrameUrl).attempts⟩]) ends
            ⟨i, vidIdx, selectStartUrl i vidIdx ff none st.lastFrameUrl
              st.segmentLastFrameUrl⟩ := by
          rcases selectStartUrl_cases i vidIdx ff st.lastFrameUrl
            st.segmentLastFrameUrl with hsel | ⟨he1, he2, he3, hsel⟩ |
            ⟨he1, he2, he3, hsel⟩ | ⟨he1, he2, hsel⟩
          · exact Or.inr (Or.inr (Or.inr hsel))
          · exact Or.inr (Or.inr (Or.inl ⟨he1, he2, he3, hsel⟩))
          · obtain ⟨u, hu⟩ := truthy_some he3
            obtain ⟨hpos, e, hmem, hsc, hurl⟩ :=
              hlastA u hu (by rw [he1]; omega)
            exact Or.inr (Or.inl ⟨he1, hpos, u, e, by rw [hsel, hu], hmem,
              hsc, hurl⟩)
          · obtain ⟨u, hu⟩ := truthy_some he2
            obtain ⟨hgt, a, hmem⟩ := hseg hvle u hu
            exact Or.inl ⟨he1, u, a, by rw [hsel, hu],
              by simp; exact Or.inl hmem⟩
        have hA : vidIdx + 1 ≤ numSegs → ∀ u,
            (if vidIdx = numSegs then st.segmentLastFrameUrl else some v) =
              some u →
            1 < vidIdx + 1 ∧ ∃ a, (⟨i, vidIdx + 1 - 1, u, a⟩ :
              AcceptedUpload) ∈ st.accepted ++ [⟨i, vidIdx, v,
                (uploadWithRetry (fun k => upload (st.uploadCtr + k))
                  st.segmentLastFrameUrl).attempts⟩] := by
          intro hle1 u hu
          rw [if_neg (by omega : ¬ vidIdx = numSegs)] at hu
          rw [Option.some_inj] at hu
          subst hu
          refine ⟨by omega, (uploadWithRetry (fun k => upload
            (st.uploadCtr + k)) st.segmentLastFrameUrl).attempts, ?_⟩
          simp
        have hB : ∀ u,
            (if vidIdx = numSegs then some v else st.lastFrameUrl) =
              some u →
            vidIdx + 1 ≤ numSegs →
            0 < i ∧ ∃ e ∈ ends, e.sceneIdx = i - 1 ∧
              e.lastUrl = some u := by
          intro u hu hle1
          rw [if_neg (by omega : ¬ vidIdx = numSegs)] at hu
          exact hlastA u hu (by omega)
        have hC : ∀ u,
            (if vidIdx = numSegs then some v else st.lastFrameUrl) =
              some u →
            numSegs < vidIdx + 1 →
            ∃ a, (⟨i, numSegs, u, a⟩ : AcceptedUpload) ∈ st.accepted ++
              [⟨i, vidIdx, v,
                (uploadWithRetry (fun k => upload (st.uploadCtr + k))
                  st.segmentLastFrameUrl).attempts⟩] := by
          intro u hu hgt1
          have hveq : vidIdx = numSegs := by omega
          rw [if_pos hveq] at hu
          rw [Option.some_inj] at hu
          subst hu
          refine ⟨(uploadWithRetry (fun k => upload
            (st.uploadCtr + k)) st.segmentLastFrameUrl).attempts, ?_⟩
          simp [hveq]
        have hD : ∀ c ∈ st.renderCalls ++
            [(⟨i, vidIdx, selectStartUrl i vidIdx ff none st.lastFrameUrl
              st.segmentLastFrameUrl⟩ : RenderCall)],
            GoodCall ff (st.accepted ++ [⟨i, vidIdx, v,
              (uploadWithRetry (fun k => upload (st.uploadCtr + k))
                st.segmentLastFrameUrl).attempts⟩]) ends c := by
          intro c hc
          simp only [List.mem_append, List.mem_singleton] at hc
          rcases hc with hc | hc
          · exact GoodCall.mono (by intro a ha; simp [ha])
              (fun e he => he) (hcalls c hc)
          · subst hc
            exact hnew
        obtain ⟨hc', hl'⟩ := runSegments_goodCalls upload vd ts i n numSegs
          ff ends rest (vidIdx + 1) _ st' h (by omega)
          (by simp only [List.length_cons] at hlen ⊢; omega) hA hB hC hD
        refine ⟨hc', fun u hu hlt => hl' u hu ?_⟩
        simp only [List.length_cons] at hlt
        omega

/-- Invariant of the scene loop (LoRA first-frame mode disabled): every
render call has a legitimate starting-frame provenance, and every
published cross-scene token comes from its scene's final accepted
upload. -/
theorem runScenes_goodCalls (engine : String) (skipSfx : Bool)
    (upload : Nat → String) (sfxOk : Nat → Bool)
    (loraUrl : Nat → Option String) (vd ts : String) (ff : Option String) :
    ∀ (scenes : List Scene) (i : Nat) (st st' : PipeState),
      runScenes engine skipSfx upload sfxOk false loraUrl vd ts ff scenes i
        st = .ok st' →
      (∀ c ∈ st.renderCalls, GoodCall ff st.accepted st.sceneEnds c) →
      GoodEnds st.accepted st.sceneEnds →
      (∀ u, st.lastFrameUrl = some u →
        0 < i ∧ ∃ e ∈ st.sceneEnds, e.sceneIdx = i - 1 ∧
          e.lastUrl = some u) →
      (∀ c ∈ st'.renderCalls, GoodCall ff st'.accepted st'.sceneEnds c) ∧
      GoodEnds st'.accepted st'.sceneEnds
  | [], i, st, st', h, hcalls, hends, hlast => by
    cases h
    exact ⟨hcalls, hends⟩
  | scene :: rest, i, st, st', h, hcalls, hends, hlast => by
    simp only [runScenes] at h
    split at h
    · simp at h
    · rename_i st1 heq
      simp only [sceneStep, if_neg (Bool.false_ne_true)] at heq
      split at heq
      · simp at heq
      · rename_i ds hds
        split at heq
        · simp at heq
        · rename_i endSt hseg
          split at heq
          · simp at heq
          · rename_i op hop
            cases heq
            have hne := videoDurations_ne_nil engine scene.sceneDuration
              ds hds
            have hdspos : 0 < ds.length := List.length_pos.mpr hne
            obtain ⟨-, hmc, hma⟩ := runSegments_ok upload vd ts i
              scene.sceneNumber ds.length ff none ds 1 _ endSt hseg
            obtain ⟨hc', hl'⟩ := runSegments_goodCalls upload vd ts i
              scene.sceneNumber ds.length ff st.sceneEnds ds 1 _ endSt hseg
              le_rfl (by omega)
              (fun hle u hu => by cases hu)
              (fun u hu hle => hlast u hu)
              (fun u hu hlt => absurd hlt (by omega))
              hcalls
            obtain ⟨hc2, he2⟩ := runScenes_goodCalls engine skipSfx upload
              sfxOk loraUrl vd ts ff rest (i + 1) _ st' h
              (by
                intro c hc
                exact GoodCall.mono (fun a ha => ha)
                  (by intro e he; simp [he]) (hc' c hc))
              (by
                intro e he u hu
                simp only [List.mem_append, List.mem_singleton] at he
                rcases he with he | he
                · obtain ⟨a, ha⟩ := hends e he u hu
                  exact ⟨a, hma _ ha⟩
                · subst he
                  simp only at hu
                  exact hl' u hu (by omega))
              (by
                intro u hu
                simp only at hu
                refine ⟨by omega, ⟨i, ds.length, endSt.lastFrameUrl⟩,
                  by simp, by simp, by simp [hu]⟩)
            exact ⟨hc2, he2⟩

/-- C4: with LoRA first-frame mode disabled, every render call of a
successful `generate_scenes` run passes as starting frame exactly one of:
(a) the URL accepted for the previous segment of the same scene, (b) the
previous scene's published last-frame URL, (c) the externally supplied
initial-frame URL (first segment of the first scene only), or (d) nothing
(pure text-to-video) — never any other value; and every published
cross-scene token is the URL accepted for its scene's final segment. -/
theorem c4_start_frame_cases (engine : String) (skipSfx : Bool)
    (upload : Nat → String) (sfxOk : Nat → Bool)
    (loraUrl : Nat → Option String) (vd ts : String) (ff : Option String)
    (scenes : List Scene) (st' : PipeState)
    (hrun : generateScenes engine skipSfx upload sfxOk false loraUrl vd ts
      ff scenes = .ok st') :
    (∀ c ∈ st'.renderCalls, GoodCall ff st'.accepted st'.sceneEnds c) ∧
    GoodEnds st'.accepted st'.sceneEnds :=
  runScenes_goodCalls engine skipSfx upload sfxOk loraUrl vd ts ff
    scenes 0 initPipeState st' hrun
    (by intro c hc; simp [initPipeState] at hc)
    (by intro e he; simp [initPipeState, GoodEnds] at he ⊢)
    (by intro u hu; simp [initPipeState] at hu)

/-- Witness for C4: the two-scene run with an initial frame and distinct
upload URLs satisfies the starting-frame provenance invariant. -/
theorem c4_start_frame_cases_witness :
    (generateScenes "luma" true (fun k => "u" ++ toString k) (fun _ => true)
      false (fun _ => none) "vd" "ts" (some "f")
      [⟨1, 5⟩, ⟨2, 14⟩]).toOption.elim False
      (fun st => (∀ c ∈ st.renderCalls,
        GoodCall (some "f") st.accepted st.sceneEnds c) ∧
        GoodEnds st.accepted st.sceneEnds) := by
  have hok : (generateScenes "luma" true (fun k => "u" ++ toString k)
      (fun _ => true) false (fun _ => none) "vd" "ts" (some "f")
      [⟨1, 5⟩, ⟨2, 14⟩]).isOk = true := by decide
  cases h : generateScenes "luma" true (fun k => "u" ++ toString k)
      (fun _ => true) false (fun _ => none) "vd" "ts" (some "f")
      [⟨1, 5⟩, ⟨2, 14⟩] with
  | error e =>
    rw [h] at hok
    simp [Except.isOk, Except.toBool] at hok
  | ok st' =>
    simp only [Except.toOption, Option.elim]
    exact c4_start_frame_cases "luma" true (fun k => "u" ++ toString k)
      (fun _ => true) (fun _ => none) "vd" "ts" (some "f")
      [⟨1, 5⟩, ⟨2, 14⟩] st' h

/-! ## Poll-loop lemmas -/

/-- If the generation is still pending at every poll the budget allows, the
`LumaVideoGenerator` wait loop raises `TimeoutError` once `3 * k` exceeds
300. -/
theorem lumaWaitLoop_timeout (state : Nat → GenState) :
    ∀ k, (∀ j, k ≤ j → j ≤ 100 → state j = .pending) →
      lumaWaitLoop state k =
        .error "Video generation timed out after 5 minutes"
  | k, hp => by
    by_cases h : 3 * k > 300
    · rw [lumaWaitLoop]
      rw [dif_pos h]
    · rw [lumaWaitLoop]
      rw [dif_neg h, hp k le_rfl (by omega)]
      exact lumaWaitLoop_timeout state (k + 1)
        (fun j h1 h2 => hp j (by omega) h2)
termination_by k => 101 - k
decreasing_by omega

/-- If the generation first completes at poll `m` within the timeout
budget, the `LumaVideoGenerator` wait loop returns at poll `m`. -/
theorem lumaWaitLoop_completed (state : Nat → GenState) (m : Nat)
    (hm : m ≤ 100) (hc : state m = .completed) :
    ∀ k, k ≤ m → (∀ j, k ≤ j → j < m → state j = .pending) →
      lumaWaitLoop state k = .ok m
  | k, hk, hp => by
    have h : ¬ 3 * k > 300 := by omega
    by_cases hkm : k = m
    · subst hkm
      rw [lumaWaitLoop, dif_neg h, hc]
    · have hlt : k < m := lt_of_le_of_ne hk hkm
      rw [lumaWaitLoop, dif_neg h, hp k le_rfl hlt]
      exact lumaWaitLoop_completed state m hm hc (k + 1) hlt
        (fun j h1 h2 => hp j (by omega) h2)
termination_by k => m - k
decreasing_by omega

/-- If the generation first fails at poll `m` within the timeout budget,
the `LumaVideoGenerator` wait loop raises with the failure reason. -/
theorem lumaWaitLoop_failed (state : Nat → GenState) (m : Nat) (r : String)
    (hm : m ≤ 100) (hc : state m = .failed r) :
    ∀ k, k ≤ m → (∀ j, k ≤ j → j < m → state j = .pending) →
      lumaWaitLoop state k = .error ("Generation failed: " ++ r)
  | k, hk, hp => by
    have h : ¬ 3 * k > 300 := by omega
    by_cases hkm : k = m
    · subst hkm
      rw [lumaWaitLoop, dif_neg h, hc]
    · have hlt : k < m := lt_of_le_of_ne hk hkm
      rw [lumaWaitLoop, dif_neg h, hp k le_rfl hlt]
      exact lumaWaitLoop_failed state m r hm hc (k + 1) hlt
        (fun j h1 h2 => hp j (by omega) h2)
termination_by k => m - k
decreasing_by omega

/-- The `VideoGenerator` wait loop never terminates on its own while the
generation stays pending: it is still polling after any amount of fuel. -/
theorem vgWaitLoop_pending_forever (state : Nat → GenState)
    (hp : ∀ j, state j = .pending) :
    ∀ fuel k, vgWaitLoop state k fuel = none
  | 0, k => rfl
  | fuel + 1, k => by
    rw [vgWaitLoop, hp k]
    exact vgWaitLoop_pending_forever state hp fuel (k + 1)

/-- The `VideoGenerator` wait loop returns at the first completed poll,
however late it comes — there is no timeout ceiling. -/
theorem vgWaitLoop_completed (state : Nat → GenState) (m : Nat)
    (hc : state m = .completed) :
    ∀ fuel k, k ≤ m → m - k < fuel →
      (∀ j, k ≤ j → j < m → state j = .pending) →
      vgWaitLoop state k fuel = some (.ok m)
  | 0, k, hk, hfuel, hp => by omega
  | fuel + 1, k, hk, hfuel, hp => by
    by_cases hkm : k = m
    · subst hkm
      rw [vgWaitLoop, hc]
    · have hlt : k < m := lt_of_le_of_ne hk hkm
      rw [vgWaitLoop, hp k le_rfl hlt]
      exact vgWaitLoop_completed state m hc fuel (k + 1) hlt (by omega)
        (fun j h1 h2 => hp j (by omega) h2)

/-! ## C5: render-completion polling -/

/-- C5 fails as stated: `LumaVideoGenerator.generate_video`
(luma_video_gen.py:81-95), the renderer the reference pipeline drives,
does have a fixed timeout ceiling — with a generation that stays pending
at every poll, the loop aborts with `TimeoutError` after 5 minutes (at the
102nd iteration, when elapsed time `3 * 101` exceeds 300) instead of
polling until a terminal state. -/
theorem c5_counterexample :
    lumaWaitLoop (fun _ => .pending) 0 =
      .error "Video generation timed out after 5 minutes" :=
  lumaWaitLoop_timeout (fun _ => .pending) 0 (fun _ _ _ => rfl)

/-- C5 amended: both wait loops poll with a fixed 3-time-unit sleep until
`completed` or `failed`; `VideoGenerator.generate_videos`
(video_generator.py:157-165) has no timeout ceiling and never aborts a
still-pending generation (it accepts a completion at any poll index and
spins forever on a never-terminating one), but
`LumaVideoGenerator.generate_video` (luma_video_gen.py:81-95) enforces a
300-time-unit ceiling: a generation still pending when the ceiling is
crossed is abandoned with `TimeoutError`. -/
theorem c5_amended (state : Nat → GenState) (m : Nat) (r : String) :
    ((∀ j ≤ 100, state j = .pending) →
      lumaWaitLoop state 0 =
        .error "Video generation timed out after 5 minutes") ∧
    (m ≤ 100 → (∀ j < m, state j = .pending) → state m = .completed →
      lumaWaitLoop state 0 = .ok m) ∧
    (m ≤ 100 → (∀ j < m, state j = .pending) → state m = .failed r →
      lumaWaitLoop state 0 = .error ("Generation failed: " ++ r)) ∧
    ((∀ j, state j = .pending) → ∀ fuel, vgWaitLoop state 0 fuel = none) ∧
    (∀ fuel, m < fuel → (∀ j < m, state j = .pending) →
      state m = .completed → vgWaitLoop state 0 fuel = some (.ok m)) := by
  refine ⟨?_, ?_, ?_, ?_, ?_⟩
  · intro hp
    exact lumaWaitLoop_timeout state 0 (fun j _ h2 => hp j h2)
  · intro hm hp hc
    exact lumaWaitLoop_completed state m hm hc 0 (Nat.zero_le m)
      (fun j _ h2 => hp j h2)
  · intro hm hp hc
    exact lumaWaitLoop_failed state m r hm hc 0 (Nat.zero_le m)
      (fun j _ h2 => hp j h2)
  · intro hp fuel
    exact vgWaitLoop_pending_forever state hp fuel 0
  · intro fuel hf hp hc
    exact vgWaitLoop_completed state m hc fuel 0 (Nat.zero_le m) (by omega)
      (fun j _ h2 => hp j h2)

/-- Witness for C5 amended: the Luma loop accepts a completion at poll 3;
the `VideoGenerator` loop accepts one at poll 200 — far past the other
loop's ceiling — and the Luma loop times out when nothing ever
completes. -/
theorem c5_amended_witness :
    lumaWaitLoop (fun j => if j = 3 then .completed else .pending) 0 =
      .ok 3 ∧
    vgWaitLoop (fun j => if j = 200 then .completed else .pending) 0 201 =
      some (.ok 200) ∧
    lumaWaitLoop (fun _ => .pending) 0 =
      .error "Video generation timed out after 5 minutes" := by
  refine ⟨?_, ?_, ?_⟩
  · exact (c5_amended (fun j => if j = 3 then .completed else .pending) 3
      "").2.1 (by omega) (fun j hj => by simp [Nat.ne_of_lt hj]) (by simp)
  · exact (c5_amended (fun j => if j = 200 then .completed else .pending)
      200 "").2.2.2.2 201 (by omega)
      (fun j hj => by simp [Nat.ne_of_lt hj]) (by simp)
  · exact (c5_amended (fun _ => .pending) 0 "").1 (fun j _ => rfl)

/-! ## C7: sound-effect attachment trims to the shorter duration -/

/-- C7: when a scene video (duration `vdur`) is paired with an existing,
loadable sound-effect file (duration `adur`), the resulting clip's
duration is `min vdur adur`: a longer audio track is trimmed to the
video's duration, and a longer video is trimmed to the audio's duration
before the audio is attached. -/
theorem c7_sfx_trim (fe : String → Bool) (vl al : String → Option ℚ)
    (v sf : String) (vdur adur : ℚ)
    (hv : vl v = some vdur) (hsf : sf.isEmpty = false) (hex : fe sf = true)
    (ha : al sf = some adur) :
    processClip fe vl al v (some sf) =
      some { videoDur := min vdur adur, audioDur := some (min vdur adur) } ∧
    (vdur < adur → attachSoundEffect vdur adur =
      { videoDur := vdur, audioDur := some vdur }) ∧
    (adur < vdur → attachSoundEffect vdur adur =
      { videoDur := adur, audioDur := some adur }) ∧
    stitchVideos fe vl al [v] (some [some sf]) =
      .ok [{ videoDur := min vdur adur,
             audioDur := some (min vdur adur) }] := by
  have hmain : processClip fe vl al v (some sf) =
      some { videoDur := min vdur adur,
             audioDur := some (min vdur adur) } := by
    simp only [processClip, hv, hsf, hex, ha, Bool.not_false,
      Bool.and_self, if_true]
    rcases lt_trichotomy adur vdur with h | h | h
    · simp [attachSoundEffect, h, not_lt.mpr h.le, min_eq_right h.le]
    · subst h
      simp [attachSoundEffect, min_self]
    · simp [attachSoundEffect, h, not_lt.mpr h.le, min_eq_left h.le]
  refine ⟨hmain, ?_, ?_, ?_⟩
  · intro h
    simp [attachSoundEffect, h]
  · intro h
    simp [attachSoundEffect, h, not_lt.mpr h.le]
  · simp [stitchVideos, effectiveSfx, hmain]

/-- Witness for C7: a 5-unit video with a 3-unit sound effect yields a
3-unit clip. -/
theorem c7_sfx_trim_witness :
    processClip (fun _ => true) (fun _ => some 5) (fun _ => some 3) "v.mp4"
      (some "s.mp3") =
      some { videoDur := min 5 3, audioDur := some (min 5 3) } ∧
    min (5 : ℚ) 3 = 3 :=
  ⟨(c7_sfx_trim (fun _ => true) (fun _ => some 5) (fun _ => some 3) "v.mp4"
      "s.mp3" 5 3 rfl rfl rfl rfl).1, by norm_num⟩

/-! ## C8: best-effort final assembly -/

/-- The number of surviving clips equals the number of pairs whose video
loads. -/
theorem length_filterMap_eq_filter {α β : Type} (f : α → Option β) :
    ∀ l : List α, (l.filterMap f).length =
      (l.filter (fun a => (f a).isSome)).length
  | [] => rfl
  | a :: l => by
    cases hf : f a <;>
      simp [List.filterMap_cons, List.filter_cons, hf,
        length_filterMap_eq_filter f l]

/-- A `(video, sound)` pair is dropped by `stitch_videos` iff its video
fails to load; audio problems never drop it. -/
theorem processClip_eq_none_iff (fe : String → Bool)
    (vl al : String → Option ℚ) (p : String × Option String) :
    processClip fe vl al p.1 p.2 = none ↔ vl p.1 = none := by
  unfold processClip
  cases hv : vl p.1
  · simp
  · cases hp2 : p.2 with
    | none => simp
    | some sf =>
      simp only
      split_ifs
      · cases ha : al sf <;> simp
      · simp

/-- A pair whose video loads but whose audio fails to load is kept as a
clip without audio. -/
theorem processClip_audio_failure (fe : String → Bool)
    (vl al : String → Option ℚ) (v sf : String) (vdur : ℚ)
    (hv : vl v = some vdur) (ha : al sf = none) :
    processClip fe vl al v (some sf) =
      some { videoDur := vdur, audioDur := none } := by
  simp only [processClip, hv, ha]
  split_ifs <;> rfl

/-- C8 fails as stated: a scene whose sound-effect processing fails is NOT
dropped — with one scene whose video loads (duration 5) but whose audio
fails to load, `stitch_videos` succeeds and keeps the scene, producing the
clip without audio; the claim would instead require the scene to be
dropped and the run to raise (zero usable clips). -/
theorem c8_counterexample :
    stitchVideos (fun _ => true) (fun _ => some 5) (fun _ => none)
      ["v.mp4"] (some [some "s.mp3"]) =
      .ok [{ videoDur := 5, audioDur := none }] := rfl

/-- C8 amended: final assembly is best-effort over *video* failures only:
a scene is dropped iff its video fails to load (audio failures keep the
scene, without its sound effect); the output is the in-order concatenation
of exactly the scenes whose videos loaded, and assembly raises fatally iff
every scene's video fails to load. -/
theorem c8_amended (fe : String → Bool) (vl al : String → Option ℚ)
    (videos : List String) (sfx : Option (List (Option String))) :
    ((stitchVideos fe vl al videos sfx).isOk = true ↔
      ∃ p ∈ videos.zip (effectiveSfx videos sfx), (vl p.1).isSome = true) ∧
    (∀ l, stitchVideos fe vl al videos sfx = .ok l →
      l = (videos.zip (effectiveSfx videos sfx)).filterMap
        (fun p => processClip fe vl al p.1 p.2) ∧
      l.length = ((videos.zip (effectiveSfx videos sfx)).filter
        (fun p => (vl p.1).isSome)).length) ∧
    (∀ v sf vdur, (v, some sf) ∈ videos.zip (effectiveSfx videos sfx) →
      vl v = some vdur → al sf = none →
      ∀ l, stitchVideos fe vl al videos sfx = .ok l →
        ({ videoDur := vdur, audioDur := none } : ClipResult) ∈ l) := by
  refine ⟨?_, ?_, ?_⟩
  · unfold stitchVideos
    dsimp only
    split_ifs with hemp
    · simp only [Except.isOk, Except.toBool]
      rw [List.isEmpty_iff] at hemp
      rw [List.filterMap_eq_nil_iff] at hemp
      constructor
      · intro h
        cases h
      · rintro ⟨p, hp, hsome⟩
        have := hemp p hp
        rw [processClip_eq_none_iff] at this
        rw [this] at hsome
        cases hsome
    · simp only [Except.isOk, Except.toBool]
      rw [List.isEmpty_iff] at hemp
      constructor
      · intro _
        by_contra hno
        push_neg at hno
        apply hemp
        rw [List.filterMap_eq_nil_iff]
        intro p hp
        rw [processClip_eq_none_iff]
        have := hno p hp
        cases hvp : vl p.1
        · rfl
        · rw [hvp] at this
          cases this rfl
      · intro _
        trivial
  · intro l hl
    unfold stitchVideos at hl
    dsimp only at hl
    split_ifs at hl
    cases hl
    refine ⟨rfl, ?_⟩
    rw [length_filterMap_eq_filter]
    congr 1
    apply List.filter_congr
    intro p _
    cases hvp : vl p.1
    · simp [(processClip_eq_none_iff fe vl al p).mpr hvp]
    · have hne : processClip fe vl al p.1 p.2 ≠ none := by
        intro hcontra
        rw [processClip_eq_none_iff fe vl al p, hvp] at hcontra
        cases hcontra
      simp [hvp, Option.isSome_iff_ne_none.mpr hne]
  · intro v sf vdur hmem hv ha l hl
    unfold stitchVideos at hl
    dsimp only at hl
    split_ifs at hl
    cases hl
    rw [List.mem_filterMap]
    exact ⟨(v, some sf), hmem,
      processClip_audio_failure fe vl al v sf vdur hv ha⟩

/-- Witness for C8 amended: an audio-failed scene survives into the
output, and a run with one loadable video among two is accepted. -/
theorem c8_amended_witness :
    ({ videoDur := 5, audioDur := none } : ClipResult) ∈
      [({ videoDur := 5, audioDur := none } : ClipResult)] ∧
    (stitchVideos (fun _ => true)
      (fun v => if v = "a.mp4" then some 5 else none) (fun _ => none)
      ["a.mp4", "b.mp4"] (some [some "s.mp3", none])).isOk = true := by
  constructor
  · exact (c8_amended (fun _ => true) (fun _ => some 5) (fun _ => none)
      ["v.mp4"] (some [some "s.mp3"])).2.2 "v.mp4" "s.mp3" 5 (by decide)
      rfl rfl [{ videoDur := 5, audioDur := none }] rfl
  · exact (c8_amended (fun _ => true)
      (fun v => if v = "a.mp4" then some 5 else none) (fun _ => none)
      ["a.mp4", "b.mp4"] (some [some "s.mp3", none])).1.mpr
      ⟨("a.mp4", some "s.mp3"), by decide, rfl⟩

/-! ## C9: narration-failure isolation -/

/-- C9 fails as stated: when narration is enabled and narration *text*
generation fails, `generate_narration_text` re-raises
(video_generation_reference.py:905-906), the outer `except` of
`generate_video` (line 1084-1085) converts it to `(str(e), None)`, and no
final video is produced — even with video generation and stitching both
able to succeed.  The main pipeline does not continue. -/
theorem c9_counterexample :
    generateVideoRun false false true "vd" "ts" "metadata"
      (.ok ([], [])) (fun _ => .ok "final.mp4") =
      ("narration text generation failed", none) := rfl

/-- C9 amended: narration *audio* synthesis failure is isolated —
`generate_narration_audio` returns `None`, the pipeline continues, and the
run completes with the final video and no narration track; but narration
*text* generation failure aborts the whole run, returning an error message
and no video path. -/
theorem c9_amended (audioOk : Bool) (vd ts metadataJson : String)
    (scenesRun : Except String (List String × List (Option String)))
    (stitchRun : Option String → Except String String) :
    (∀ p, scenesRun = .ok p → ∀ f, stitchRun none = .ok f →
      generateVideoRun false true false vd ts metadataJson scenesRun
        stitchRun = (metadataJson, some f)) ∧
    ((generateVideoRun false false audioOk vd ts metadataJson scenesRun
      stitchRun).2 = none) ∧
    (∀ p, scenesRun = .ok p → ∀ f,
      stitchRun (some (vd ++ "/narration_audio_adjusted_" ++ ts ++
        ".mp3")) = .ok f →
      generateVideoRun false true true vd ts metadataJson scenesRun
        stitchRun = (metadataJson, some f)) := by
  refine ⟨?_, ?_, ?_⟩
  · intro p hs f hf
    simp [generateVideoRun, generateNarrationAudio, hs, hf]
  · simp [generateVideoRun]
  · intro p hs f hf
    simp [generateVideoRun, generateNarrationAudio, hs, hf]

/-- Witness for C9 amended: with narration audio failing, the run still
returns the final video; with narration text failing, no video path is
returned. -/
theorem c9_amended_witness :
    generateVideoRun false true false "vd" "ts" "metadata"
      (.ok (["v.mp4"], [none])) (fun _ => .ok "final.mp4") =
      ("metadata", some "final.mp4") ∧
    (generateVideoRun false false true "vd" "ts" "metadata"
      (.ok (["v.mp4"], [none])) (fun _ => .ok "final.mp4")).2 = none :=
  ⟨(c9_amended true "vd" "ts" "metadata" (.ok (["v.mp4"], [none]))
      (fun _ => .ok "final.mp4")).1 (["v.mp4"], [none]) rfl "final.mp4"
      rfl,
    (c9_amended true "vd" "ts" "metadata" (.ok (["v.mp4"], [none]))
      (fun _ => .ok "final.mp4")).2.1⟩

/-- Witness for C3 amended: a concrete state holding `"u"` as the previous
scene's token, and an upload stub returning `"u"` again. -/
theorem c3_amended_witness :
    ∃ st', sceneStep "luma" true (fun _ => "u") (fun _ => true) false
        (fun _ => none) "vd" "ts" none 1 ⟨2, 5⟩
        { initPipeState with lastFrameUrl := some "u" } = .ok st' ∧
      st'.accepted = [⟨1, 1, "u", 1⟩] ∧ st'.lastFrameUrl = some "u" := by
  obtain ⟨-, st', h1, h2, h3⟩ := c3_amended (fun _ => "u") "u"
    { initPipeState with lastFrameUrl := some "u" } ⟨2, 5⟩ 1 "vd" "ts"
    (fun _ => true) (fun _ => none) rfl rfl rfl
  exact ⟨st', h1, by simpa using h2, h3⟩

end VideoPipeline
